import Mathlib

/-!
# Verification of the Threadmill pace-tracking simulator core

Shallow embedding of the simulation core in `src/components/ClickChart.tsx`
of the `marclelamy/threadmill` repository.

The component keeps React state
`isRunning, speed, referenceSpeed, time, distance, chartData, targetTime`
and derives `catchUpTime` and `requiredSpeed` from it in an effect.
We embed that state as a structure over exact arithmetic (`ℚ` for the
real-valued fields, `ℕ`/`ℤ` for the time fields), the tick callback and the
control handlers as pure state transformers, and the two estimator
computations as functions of the state.  A separate NaN-aware embedding of
the estimators (values in `Option ℚ`, `none` standing for a non-finite
JavaScript number) is used for the claims about malformed direct-entry
input, since `parseInt`/`parseFloat` can store `NaN` into
`targetTime`/`referenceSpeed`.
-/

namespace Threadmill

/-- One chart data point, `interface ChartDataPoint` in the source:
`{ time: number; distance: number; reference: number }`.  `time` is always
a whole number of seconds in every state the component reaches. -/
structure Sample where
  time : ℕ
  distance : ℚ
  reference : ℚ
  deriving Repr, DecidableEq

/-- The React state of `ClickChart`:
`isRunning`, `speed` (mi/h), `referenceSpeed` (mi/h), `time` (s),
`distance` (mi), `chartData`, `targetTime` (s).  The derived outputs
`catchUpTime` and `requiredSpeed` are modelled as functions below rather
than as stored fields, which is observationally equivalent in the
single-threaded model (the effect recomputes them from this state before
any read). -/
structure State where
  isRunning : Bool
  speed : ℚ
  referenceSpeed : ℚ
  time : ℕ
  distance : ℚ
  chartData : List Sample
  targetTime : ℤ
  deriving Repr, DecidableEq

/-- The initial `useState` values:
`isRunning=false, speed=5.0, referenceSpeed=6.0, time=0, distance=0,
chartData=[{time:0, distance:0, reference:0}], targetTime=3600`. -/
def initialState : State :=
  { isRunning := false
    speed := 5
    referenceSpeed := 6
    time := 0
    distance := 0
    chartData := [⟨0, 0, 0⟩]
    targetTime := 3600 }

/-- The `setInterval` callback of the tick effect (fires once per second
while running):
`setTime(t+1)`, `setDistance(d + speed/3600)`, and append
`{ time: time+1, distance: distance + speed/3600,
   reference: (time+1) * referenceSpeed / 3600 }` to `chartData`. -/
def tick (s : State) : State :=
  { s with
    time := s.time + 1
    distance := s.distance + s.speed / 3600
    chartData := s.chartData ++
      [⟨s.time + 1, s.distance + s.speed / 3600,
        ((s.time : ℚ) + 1) * s.referenceSpeed / 3600⟩] }

/-- `chartData[chartData.length - 1]`: the latest sample.  `chartData` is
never empty in a reachable state (it starts at the seed sample and is only
appended to), so the default value is never consulted there. -/
def lastSample (s : State) : Sample :=
  s.chartData.getLastD ⟨0, 0, 0⟩

/-- The catch-up estimator (first half of the estimator effect):
if `speed > referenceSpeed`, let
`distanceDiff = last.reference - last.distance`,
`speedDiff = speed - referenceSpeed`,
`catchUpTimeSeconds = Math.round(distanceDiff / speedDiff * 3600)`,
result `catchUpTimeSeconds > 0 ? catchUpTimeSeconds : 0`; otherwise the
result is `null` (modelled as `none`).  `Math.round` on an exact value is
`round : ℚ → ℤ` (round half towards positive infinity). -/
def catchUpTime (s : State) : Option ℤ :=
  if s.referenceSpeed < s.speed then
    let distanceDiff := (lastSample s).reference - (lastSample s).distance
    let speedDiff := s.speed - s.referenceSpeed
    let catchUpTimeSeconds := round (distanceDiff / speedDiff * 3600)
    some (if 0 < catchUpTimeSeconds then catchUpTimeSeconds else 0)
  else none

/-- The required-speed estimator (second half of the estimator effect):
`remainingTime = targetTime - time`; if `remainingTime > 0`, let
`distanceToGo = referenceSpeed * targetTime / 3600 - distance`,
`requiredSpeedValue = distanceToGo / remainingTime * 3600`, result
`requiredSpeedValue > 0 ? requiredSpeedValue : null`; otherwise `null`. -/
def requiredSpeed (s : State) : Option ℚ :=
  let remainingTime : ℤ := s.targetTime - s.time
  if 0 < remainingTime then
    let distanceToGo : ℚ := s.referenceSpeed * (s.targetTime : ℚ) / 3600 - s.distance
    let requiredSpeedValue := distanceToGo / (remainingTime : ℚ) * 3600
    if 0 < requiredSpeedValue then some requiredSpeedValue else none
  else none

/-- `handleStart`: `setIsRunning(true)`. -/
def handleStart (s : State) : State := { s with isRunning := true }

/-- `handleStop`: `setIsRunning(false)`. -/
def handleStop (s : State) : State := { s with isRunning := false }

/-- `handleSpeedChange(change)`: `setSpeed(prev => Math.max(0, prev + change))`. -/
def handleSpeedChange (change : ℚ) (s : State) : State :=
  { s with speed := max 0 (s.speed + change) }

/-- `handleReferenceSpeedChange(change)`:
`setReferenceSpeed(prev => Math.max(0, prev + change))`. -/
def handleReferenceSpeedChange (change : ℚ) (s : State) : State :=
  { s with referenceSpeed := max 0 (s.referenceSpeed + change) }

/-- The target-time minus button:
`setTargetTime(prev => Math.max(60, prev - 60))`. -/
def targetTimeMinus (s : State) : State :=
  { s with targetTime := max 60 (s.targetTime - 60) }

/-- The target-time plus button: `setTargetTime(prev => prev + 60)`
(no floor is applied on this path). -/
def targetTimePlus (s : State) : State :=
  { s with targetTime := s.targetTime + 60 }

/-- The target-time input field:
`setTargetTime(parseInt(e.target.value) * 60)` — any integer number of
minutes, multiplied by 60, with no clamping.  (The `NaN` outcome of
`parseInt` on malformed text is treated in the NaN-aware model below.) -/
def targetTimeDirect (minutes : ℤ) (s : State) : State :=
  { s with targetTime := minutes * 60 }

/-- The reference-speed input field:
`setReferenceSpeed(parseFloat(e.target.value))` — the parsed value is
stored with no clamping.  (The `NaN` outcome of `parseFloat` on malformed
text is treated in the NaN-aware model below.) -/
def referenceSpeedDirect (v : ℚ) (s : State) : State :=
  { s with referenceSpeed := v }

/-- The control-surface and clock events that can mutate the state. -/
inductive Op where
  | start : Op
  | stop : Op
  | tick : Op
  | speedDelta : ℚ → Op
  | refDelta : ℚ → Op
  | targetMinus : Op
  | targetPlus : Op
  | targetDirect : ℤ → Op
  | refDirect : ℚ → Op
  deriving Repr, DecidableEq

/-- Apply one event.  The interval callback only fires while
`isRunning` is true (the effect installs the timer only in that case), so
a tick event in a stopped state leaves the state unchanged. -/
def applyOp : Op → State → State
  | .start, s => handleStart s
  | .stop, s => handleStop s
  | .tick, s => if s.isRunning then tick s else s
  | .speedDelta d, s => handleSpeedChange d s
  | .refDelta d, s => handleReferenceSpeedChange d s
  | .targetMinus, s => targetTimeMinus s
  | .targetPlus, s => targetTimePlus s
  | .targetDirect m, s => targetTimeDirect m s
  | .refDirect v, s => referenceSpeedDirect v s

/-- Run a sequence of events from a state. -/
def run (ops : List Op) (s : State) : State :=
  ops.foldl (fun t o => applyOp o t) s

/-- A state the component can actually be in: reached from the initial
state by some sequence of events. -/
def Reachable (s : State) : Prop :=
  ∃ ops : List Op, run ops initialState = s

/-- Whether an event is the reference-speed direct-entry event. -/
def Op.isRefDirect : Op → Bool
  | .refDirect _ => true
  | _ => false

/-! ## NaN-aware model of the estimators

`parseInt`/`parseFloat` on malformed text produce `NaN`, and the two
input `onChange` handlers store the parsed value without any check, so
`targetTime` and `referenceSpeed` can hold `NaN`.  A JavaScript number
that may be non-finite is modelled as `Option ℚ`, `none` standing for a
non-finite value (`NaN`; division by zero, which would give `±Infinity`
or `NaN`, is also mapped to `none` — the branches used below never divide
by zero, so the conflation is never consulted).  Every comparison with a
non-finite operand is `false`, as every JavaScript comparison with `NaN`
is. -/

/-- JavaScript subtraction: `NaN` absorbs. -/
def jsub : Option ℚ → Option ℚ → Option ℚ
  | some x, some y => some (x - y)
  | _, _ => none

/-- JavaScript multiplication: `NaN` absorbs. -/
def jmul : Option ℚ → Option ℚ → Option ℚ
  | some x, some y => some (x * y)
  | _, _ => none

/-- JavaScript division: `NaN` absorbs; a zero divisor gives a non-finite
value (never consulted in the guarded uses below). -/
def jdiv : Option ℚ → Option ℚ → Option ℚ
  | some x, some y => if y = 0 then none else some (x / y)
  | _, _ => none

/-- JavaScript strict `>`: false whenever either side is non-finite. -/
def jgt : Option ℚ → Option ℚ → Bool
  | some x, some y => decide (y < x)
  | _, _ => false

/-- JavaScript `Math.round`: `Math.round(NaN)` is `NaN`. -/
def jround : Option ℚ → Option ℚ
  | some x => some ((round x : ℤ) : ℚ)
  | none => none

/-- A chart data point whose numeric fields may be non-finite (a `NaN`
`referenceSpeed` makes the tick append a sample with `NaN` reference). -/
structure SampleN where
  time : ℕ
  distance : Option ℚ
  reference : Option ℚ
  deriving Repr, DecidableEq

/-- The state fields the estimator effect reads, with the fields that
direct entry can poison allowed to be non-finite.  `time` stays a genuine
integer: it is only ever set by `setTime(prev => prev + 1)` from 0. -/
structure StateN where
  speed : Option ℚ
  referenceSpeed : Option ℚ
  time : ℕ
  distance : Option ℚ
  chartData : List SampleN
  targetTime : Option ℚ
  deriving Repr, DecidableEq

/-- `chartData[chartData.length - 1]` in the NaN-aware model. -/
def lastSampleN (s : StateN) : SampleN :=
  s.chartData.getLastD ⟨0, some 0, some 0⟩

/-- The catch-up computation with JavaScript `NaN` semantics.  The outer
`Option` is the `number | null` of `useState`: `none` is `null`; a
`some v` is a number, itself non-finite when `v = none`. -/
def catchUpTimeN (s : StateN) : Option (Option ℚ) :=
  if jgt s.speed s.referenceSpeed then
    let distanceDiff := jsub (lastSampleN s).reference (lastSampleN s).distance
    let speedDiff := jsub s.speed s.referenceSpeed
    let catchUpTimeSeconds := jround (jmul (jdiv distanceDiff speedDiff) (some 3600))
    some (if jgt catchUpTimeSeconds (some 0) then catchUpTimeSeconds else some 0)
  else none

/-- The required-speed computation with JavaScript `NaN` semantics. -/
def requiredSpeedN (s : StateN) : Option (Option ℚ) :=
  let remainingTime := jsub s.targetTime (some (s.time : ℚ))
  if jgt remainingTime (some 0) then
    let distanceToGo := jsub (jdiv (jmul s.referenceSpeed s.targetTime) (some 3600)) s.distance
    let requiredSpeedValue := jmul (jdiv distanceToGo remainingTime) (some 3600)
    if jgt requiredSpeedValue (some 0) then some requiredSpeedValue else none
  else none

/-! ## Helper lemmas -/

/-- The latest sample after a tick is the sample the tick appended. -/
theorem lastSample_tick (s : State) :
    lastSample (tick s) =
      ⟨s.time + 1, s.distance + s.speed / 3600,
        ((s.time : ℚ) + 1) * s.referenceSpeed / 3600⟩ := by
  simp [lastSample, tick, List.getLastD_concat]

/-- The conditional clamp of the catch-up result is a `max` with 0. -/
theorem ite_pos_eq_max (c : ℤ) : (if 0 < c then c else 0) = max 0 c := by
  rcases lt_or_le 0 c with h | h
  · rw [if_pos h, max_eq_right h.le]
  · rw [if_neg (not_lt.mpr h), max_eq_left h]

/-- A tick never changes the current speed. -/
theorem tick_speed (s : State) : (tick s).speed = s.speed := rfl

/-- A tick never changes the reference speed. -/
theorem tick_referenceSpeed (s : State) : (tick s).referenceSpeed = s.referenceSpeed := rfl

/-- Iterated ticks never change the current speed. -/
theorem tick_iterate_speed (n : ℕ) (s : State) : (tick^[n] s).speed = s.speed := by
  induction n with
  | zero => rfl
  | succ k ih => rw [Function.iterate_succ_apply', tick_speed, ih]

/-- Each tick advances elapsed time by exactly one second. -/
theorem tick_iterate_time (n : ℕ) (s : State) : (tick^[n] s).time = s.time + n := by
  induction n with
  | zero => rfl
  | succ k ih =>
    rw [Function.iterate_succ_apply']
    show (tick^[k] s).time + 1 = s.time + (k + 1)
    omega

/-- Distance accumulated by `n` ticks: `n` increments of `speed / 3600`. -/
theorem tick_iterate_distance (n : ℕ) (s : State) :
    (tick^[n] s).distance = s.distance + n * s.speed / 3600 := by
  induction n with
  | zero => simp
  | succ k ih =>
    rw [Function.iterate_succ_apply']
    show (tick^[k] s).distance + (tick^[k] s).speed / 3600 = _
    rw [ih, tick_iterate_speed]
    push_cast
    ring

/-! ## Claim theorems -/

/-- Claim C1: the catch-up estimator reports `null` exactly when
`currentSpeed <= referenceSpeed`; when `currentSpeed > referenceSpeed` it
reports `max(0, round((latestReference - latestDistance) / (currentSpeed -
referenceSpeed) * 3600))` computed from the latest sample of the history,
and every numeric result is a non-negative integer. -/
theorem C1_catch_up_estimator (s : State) :
    (catchUpTime s = none ↔ s.speed ≤ s.referenceSpeed) ∧
    (s.referenceSpeed < s.speed →
      catchUpTime s =
        some (max 0 (round (((lastSample s).reference - (lastSample s).distance) /
          (s.speed - s.referenceSpeed) * 3600)))) ∧
    (∀ c : ℤ, catchUpTime s = some c → 0 ≤ c) := by
  have hval : s.referenceSpeed < s.speed →
      catchUpTime s =
        some (max 0 (round (((lastSample s).reference - (lastSample s).distance) /
          (s.speed - s.referenceSpeed) * 3600))) := by
    intro h
    simp [catchUpTime, if_pos h, ite_pos_eq_max]
  have hnone : s.speed ≤ s.referenceSpeed → catchUpTime s = none := by
    intro h
    simp [catchUpTime, if_neg (not_lt.mpr h)]
  refine ⟨⟨fun hn => ?_, fun hle => hnone hle⟩, fun hlt => hval hlt, fun c hc => ?_⟩
  · by_contra hlt
    push_neg at hlt
    rw [hval hlt] at hn
    exact Option.some_ne_none _ hn
  · rcases lt_or_le s.referenceSpeed s.speed with h | h
    · rw [hval h] at hc
      simp only [Option.some.injEq] at hc
      rw [← hc]
      exact le_max_left 0 _
    · rw [hnone h] at hc
      exact absurd hc (by simp)

/-- The state of the spec's catch-up scenario: `speed = 6`,
`referenceSpeed = 5`, and the reference 0.1 miles ahead in the latest
sample. -/
def exC1 : State :=
  { initialState with
    speed := 6
    referenceSpeed := 5
    chartData := [⟨0, 0, 0⟩, ⟨1, 0, 1/10⟩] }

/-- Witness for C1: in the scenario state the catch-up estimate is
`round(0.1 / 1 * 3600) = 360` seconds. -/
theorem C1_catch_up_estimator_witness :
    exC1.referenceSpeed < exC1.speed ∧ catchUpTime exC1 = some 360 := by
  have hlt : exC1.referenceSpeed < exC1.speed := by norm_num [exC1, initialState]
  refine ⟨hlt, ?_⟩
  rw [(C1_catch_up_estimator exC1).2.1 hlt]
  norm_num [exC1, lastSample, initialState]

/-- Claim C2: the required-speed estimator reports `null` exactly when the
remaining time `targetTime - time` is non-positive or the computed value
`(referenceSpeed * targetTime / 3600 - distance) / (targetTime - time) * 3600`
is non-positive; otherwise it reports exactly that value. -/
theorem C2_required_speed_estimator (s : State) :
    (requiredSpeed s = none ↔
      s.targetTime - (s.time : ℤ) ≤ 0 ∨
        (s.referenceSpeed * (s.targetTime : ℚ) / 3600 - s.distance) /
          ((s.targetTime : ℚ) - (s.time : ℚ)) * 3600 ≤ 0) ∧
    (0 < s.targetTime - (s.time : ℤ) →
      0 < (s.referenceSpeed * (s.targetTime : ℚ) / 3600 - s.distance) /
          ((s.targetTime : ℚ) - (s.time : ℚ)) * 3600 →
      requiredSpeed s =
        some ((s.referenceSpeed * (s.targetTime : ℚ) / 3600 - s.distance) /
          ((s.targetTime : ℚ) - (s.time : ℚ)) * 3600)) := by
  have hcast : ((s.targetTime - (s.time : ℤ) : ℤ) : ℚ) =
      (s.targetTime : ℚ) - (s.time : ℚ) := by push_cast; ring
  by_cases hrem : 0 < s.targetTime - (s.time : ℤ)
  · by_cases hv : 0 < (s.referenceSpeed * (s.targetTime : ℚ) / 3600 - s.distance) /
        ((s.targetTime : ℚ) - (s.time : ℚ)) * 3600
    · have hr : requiredSpeed s =
          some ((s.referenceSpeed * (s.targetTime : ℚ) / 3600 - s.distance) /
            ((s.targetTime : ℚ) - (s.time : ℚ)) * 3600) := by
        simp [requiredSpeed, hcast, hrem, hv]
      refine ⟨?_, fun _ _ => hr⟩
      rw [hr]
      simp only [Option.some_ne_none, false_iff]
      push_neg
      exact ⟨by omega, by linarith⟩
    · have hr : requiredSpeed s = none := by
        simp [requiredSpeed, hcast, hrem, hv]
      refine ⟨?_, fun _ hcontra => absurd hcontra hv⟩
      rw [hr]
      simp only [true_iff]
      exact Or.inr (not_lt.mp hv)
  · have hr : requiredSpeed s = none := by
      simp [requiredSpeed, hrem]
    refine ⟨?_, fun hcontra _ => absurd hcontra hrem⟩
    rw [hr]
    simp only [true_iff]
    exact Or.inl (by omega)

/-- The state of the spec's required-speed scenario: `targetTime = 3600`,
`referenceSpeed = 6`, `time = 1800`, `distance = 2`. -/
def exC2 : State :=
  { initialState with
    targetTime := 3600
    referenceSpeed := 6
    time := 1800
    distance := 2 }

/-- Witness for C2: in the scenario state the required speed is exactly
`8` mi/h. -/
theorem C2_required_speed_estimator_witness : requiredSpeed exC2 = some 8 := by
  have h := (C2_required_speed_estimator exC2).2
    (by norm_num [exC2, initialState]) (by norm_num [exC2, initialState])
  rw [h]
  norm_num [exC2, initialState]

/-- Claim C3: with the current speed held constant at `v`, after `n` ticks the
cumulative distance equals `n * v / 3600`; each tick adds exactly
`speed / 3600` to the distance and exactly 1 to the elapsed time. -/
theorem C3_distance_accumulation (n : ℕ) (v : ℚ) (s : State)
    (hspeed : s.speed = v) (hdist : s.distance = 0) :
    (tick^[n] s).distance = n * v / 3600 ∧
    (tick^[n] s).time = s.time + n ∧
    (∀ t : State, (tick t).distance = t.distance + t.speed / 3600 ∧
      (tick t).time = t.time + 1) := by
  refine ⟨?_, tick_iterate_time n s, fun t => ⟨rfl, rfl⟩⟩
  rw [tick_iterate_distance, hspeed, hdist, zero_add]

/-- Witness for C3: from the initial state (speed 5, distance 0), three
ticks accumulate `3 * 5 / 3600` miles. -/
theorem C3_distance_accumulation_witness :
    initialState.speed = 5 ∧ initialState.distance = 0 ∧
      (tick^[3] initialState).distance = 3 * 5 / 3600 :=
  ⟨rfl, rfl, (C3_distance_accumulation 3 5 initialState rfl rfl).1⟩

/-- Claim C4: the reference distance of the sample appended by a tick is
`(time + 1) * referenceSpeed / 3600`, computed from the elapsed time and
the referenceSpeed current at that tick alone — two states with the same
elapsed time and the same current referenceSpeed append samples with the
same reference value, whatever their speed histories did to the
accumulated distance. -/
theorem C4_reference_path_independent (s₁ s₂ : State)
    (htime : s₁.time = s₂.time) (href : s₁.referenceSpeed = s₂.referenceSpeed) :
    (lastSample (tick s₁)).reference = (lastSample (tick s₂)).reference ∧
    (lastSample (tick s₁)).reference = ((s₁.time : ℚ) + 1) * s₁.referenceSpeed / 3600 := by
  rw [lastSample_tick, lastSample_tick]
  exact ⟨by rw [htime, href], rfl⟩

/-- Witness for C4: the initial state and the initial state after a speed
change to 9 mi/h (same elapsed time, same referenceSpeed, different
speed) append samples with the same reference distance. -/
theorem C4_reference_path_independent_witness :
    initialState.time = (handleSpeedChange 4 initialState).time ∧
    initialState.referenceSpeed = (handleSpeedChange 4 initialState).referenceSpeed ∧
    (lastSample (tick initialState)).reference =
      (lastSample (tick (handleSpeedChange 4 initialState))).reference :=
  ⟨rfl, rfl, (C4_reference_path_independent initialState (handleSpeedChange 4 initialState)
    rfl rfl).1⟩

/-- Claim C7 counterexample: the claim says a +60 edit always results in at
least 60 seconds, but the +60 button does not clamp.  From the reachable
state with `targetTime = -120` (direct entry of -2 minutes), the +60 edit
yields -60, which is below 60. -/
theorem C7_counterexample :
    Reachable (targetTimePlus (targetTimeDirect (-2) initialState)) ∧
    ¬ (60 ≤ (targetTimePlus (targetTimeDirect (-2) initialState)).targetTime) := by
  refine ⟨⟨[Op.targetDirect (-2), Op.targetPlus], rfl⟩, ?_⟩
  norm_num [targetTimePlus, targetTimeDirect, initialState]

/-- Claim C7 (amended): the -60 edit enforces the floor of 60 seconds
(`max(60, prev - 60)`), the +60 edit simply adds 60 without any floor,
and direct entry stores the entered minutes times 60 without any
clamping. -/
theorem C7_target_time_edits (s : State) (m : ℤ) :
    60 ≤ (targetTimeMinus s).targetTime ∧
    (targetTimeMinus s).targetTime = max 60 (s.targetTime - 60) ∧
    (targetTimePlus s).targetTime = s.targetTime + 60 ∧
    (targetTimeDirect m s).targetTime = m * 60 :=
  ⟨le_max_left 60 _, rfl, rfl, rfl⟩

/-- Claim C8: `adjustSpeed(delta)` sets the current speed to
`max(0, speed + delta)` and `adjustReferenceSpeed(delta)` sets the
reference speed to `max(0, referenceSpeed + delta)`; both results are
non-negative (a result of exactly 0 is an ordinary value, and both
operations are total functions). -/
theorem C8_speed_adjustments (s : State) (d : ℚ) :
    (handleSpeedChange d s).speed = max 0 (s.speed + d) ∧
    (handleReferenceSpeedChange d s).referenceSpeed = max 0 (s.referenceSpeed + d) ∧
    0 ≤ (handleSpeedChange d s).speed ∧
    0 ≤ (handleReferenceSpeedChange d s).referenceSpeed :=
  ⟨rfl, rfl, le_max_left 0 _, le_max_left 0 _⟩

/-- Claim C10: after any tick, the latest sample of the history agrees with the
state scalars the estimators read: its `time` field is the updated
elapsed time of the state and its `distance` field is the updated
cumulative distance. -/
theorem C10_last_sample_consistent (s : State) :
    (lastSample (tick s)).time = (tick s).time ∧
    (lastSample (tick s)).distance = (tick s).distance := by
  rw [lastSample_tick]
  exact ⟨rfl, rfl⟩

/-! ## History invariants (for C5) -/

theorem tick_chartData (s : State) :
    (tick s).chartData = s.chartData ++
      [⟨s.time + 1, s.distance + s.speed / 3600,
        ((s.time : ℚ) + 1) * s.referenceSpeed / 3600⟩] := rfl

theorem tick_time (s : State) : (tick s).time = s.time + 1 := rfl

theorem head?_append_left {α : Type _} (l₁ l₂ : List α) (a : α)
    (h : l₁.head? = some a) : (l₁ ++ l₂).head? = some a := by
  cases l₁ with
  | nil => simp at h
  | cons b t => simpa using h

/-- The sample times recorded in the history are exactly `0, 1, ..., time`
in order. -/
def timesAreRange (s : State) : Prop :=
  s.chartData.map Sample.time = List.range (s.time + 1)

theorem timesAreRange_initial : timesAreRange initialState := by
  unfold timesAreRange initialState
  decide

theorem timesAreRange_tick (s : State) (h : timesAreRange s) :
    timesAreRange (tick s) := by
  unfold timesAreRange
  rw [tick_chartData, tick_time, List.map_append, h]
  rw [show List.range (s.time + 1 + 1) = List.range (s.time + 1) ++ [s.time + 1] from
    List.range_succ (s.time + 1)]
  simp

theorem timesAreRange_iterate (n : ℕ) (s : State) (h : timesAreRange s) :
    timesAreRange (tick^[n] s) := by
  induction n with
  | zero => exact h
  | succ k ih =>
    rw [Function.iterate_succ_apply']
    exact timesAreRange_tick _ ih

theorem timesAreRange_handleStart (s : State) (h : timesAreRange s) :
    timesAreRange (handleStart s) := h

theorem timesAreRange_handleStop (s : State) (h : timesAreRange s) :
    timesAreRange (handleStop s) := h

/-- The history still starts with the seed sample after a tick. -/
theorem headSeed_tick (s : State) (h : s.chartData.head? = some ⟨0, 0, 0⟩) :
    (tick s).chartData.head? = some ⟨0, 0, 0⟩ := by
  rw [tick_chartData]
  exact head?_append_left _ _ _ h

theorem headSeed_iterate (n : ℕ) (s : State) (h : s.chartData.head? = some ⟨0, 0, 0⟩) :
    (tick^[n] s).chartData.head? = some ⟨0, 0, 0⟩ := by
  induction n with
  | zero => exact h
  | succ k ih =>
    rw [Function.iterate_succ_apply']
    exact headSeed_tick _ ih

theorem chain'_of_timesAreRange (s : State) (h : timesAreRange s) :
    s.chartData.Chain' (fun a b => a.time < b.time) := by
  have hp : (s.chartData.map Sample.time).Chain' (fun a b : ℕ => a < b) := by
    rw [h]
    exact (List.pairwise_lt_range _).chain'
  exact (List.chain'_map Sample.time).mp hp

theorem run_cons (o : Op) (l : List Op) (s : State) :
    run (o :: l) s = run l (applyOp o s) := rfl

theorem run_append (l₁ l₂ : List Op) (s : State) :
    run (l₁ ++ l₂) s = run l₂ (run l₁ s) := by
  simp [run, List.foldl_append]

theorem tick_isRunning (s : State) : (tick s).isRunning = s.isRunning := rfl

theorem tick_iterate_isRunning (n : ℕ) (s : State) :
    (tick^[n] s).isRunning = s.isRunning := by
  induction n with
  | zero => rfl
  | succ k ih => rw [Function.iterate_succ_apply', tick_isRunning, ih]

/-- While running, a burst of `n` tick events is `n` applications of the
tick transition. -/
theorem run_replicate_tick (n : ℕ) (s : State) (h : s.isRunning = true) :
    run (List.replicate n Op.tick) s = tick^[n] s := by
  induction n generalizing s with
  | zero => rfl
  | succ k ih =>
    rw [List.replicate_succ, run_cons]
    show run (List.replicate k Op.tick) (if s.isRunning then tick s else s) = _
    rw [if_pos h, ih (tick s) h, Function.iterate_succ_apply]

/-- The event sequence of the C5 scenario: start, `N₁` ticks, stop,
restart, `N₂` more ticks. -/
def stopRestartOps (N₁ N₂ : ℕ) : List Op :=
  Op.start :: (List.replicate N₁ Op.tick ++ Op.stop :: Op.start :: List.replicate N₂ Op.tick)

/-- The C5 scenario run reduces to iterated ticks around start/stop. -/
theorem run_stopRestartOps (N₁ N₂ : ℕ) :
    run (stopRestartOps N₁ N₂) initialState =
      tick^[N₂] (handleStart (handleStop (tick^[N₁] (handleStart initialState)))) := by
  rw [stopRestartOps, run_cons]
  show run (List.replicate N₁ Op.tick ++ Op.stop :: Op.start :: List.replicate N₂ Op.tick)
    (handleStart initialState) = _
  rw [run_append, run_replicate_tick N₁ (handleStart initialState) rfl, run_cons, run_cons]
  show run (List.replicate N₂ Op.tick)
    (handleStart (handleStop (tick^[N₁] (handleStart initialState)))) = _
  exact run_replicate_tick N₂ _ rfl

/-- Claim C5: the history starts as the single seed sample, grows by exactly
one appended sample per tick (and is untouched by start/stop), and after
starting, `N₁` ticks, stopping, restarting and `N₂` more ticks it holds
`1 + N₁ + N₂` samples with strictly increasing time values, still headed
by the seed sample. -/
theorem C5_history_append_only (N₁ N₂ : ℕ) :
    (run (stopRestartOps N₁ N₂) initialState).chartData.length = 1 + N₁ + N₂ ∧
    (run (stopRestartOps N₁ N₂) initialState).chartData.Chain' (fun a b => a.time < b.time) ∧
    (run (stopRestartOps N₁ N₂) initialState).chartData.head? = some ⟨0, 0, 0⟩ ∧
    initialState.chartData = [⟨0, 0, 0⟩] ∧
    (∀ t : State, (tick t).chartData = t.chartData ++
      [⟨t.time + 1, t.distance + t.speed / 3600,
        ((t.time : ℚ) + 1) * t.referenceSpeed / 3600⟩]) ∧
    (∀ (o : Op) (t : State), o ≠ Op.tick → (applyOp o t).chartData = t.chartData) := by
  have hfinal : timesAreRange (run (stopRestartOps N₁ N₂) initialState) := by
    rw [run_stopRestartOps]
    exact timesAreRange_iterate N₂ _ (timesAreRange_handleStart _ (timesAreRange_handleStop _
      (timesAreRange_iterate N₁ _ (timesAreRange_handleStart _ timesAreRange_initial))))
  have htime : (run (stopRestartOps N₁ N₂) initialState).time = N₁ + N₂ := by
    rw [run_stopRestartOps, tick_iterate_time]
    show (tick^[N₁] (handleStart initialState)).time + N₂ = N₁ + N₂
    rw [tick_iterate_time]
    show 0 + N₁ + N₂ = N₁ + N₂
    omega
  refine ⟨?_, chain'_of_timesAreRange _ hfinal, ?_, rfl, fun t => rfl, fun o t ho => ?_⟩
  · have hlen := congrArg List.length hfinal
    rw [List.length_map, List.length_range, htime] at hlen
    omega
  · rw [run_stopRestartOps]
    exact headSeed_iterate N₂ _ (headSeed_iterate N₁ _ rfl)
  · cases o with
    | start => rfl
    | stop => rfl
    | tick => exact absurd rfl ho
    | speedDelta d => rfl
    | refDelta d => rfl
    | targetMinus => rfl
    | targetPlus => rfl
    | targetDirect m => rfl
    | refDirect v => rfl

/-- Witness for C5: at the concrete run with two ticks, a stop, a
restart and three more ticks, the history length is six; a start event,
which is not a tick, leaves the history untouched. -/
theorem C5_history_append_only_witness :
    Op.start ≠ Op.tick ∧
    (run (stopRestartOps 2 3) initialState).chartData.length = 1 + 2 + 3 ∧
    (applyOp Op.start initialState).chartData = initialState.chartData := by
  refine ⟨by decide, (C5_history_append_only 2 3).1, ?_⟩
  exact (C5_history_append_only 2 3).2.2.2.2.2 Op.start initialState (by decide)

/-! ## Speed sign invariants (for C9) -/

/-- Claim C9 counterexample: the reference-speed input stores the parsed value
with no clamping, so the reachable state after direct entry of -1 has a
negative referenceSpeed — the declared positivity invariant fails. -/
theorem C9_counterexample :
    Reachable (referenceSpeedDirect (-1) initialState) ∧
    ¬ (0 < (referenceSpeedDirect (-1) initialState).referenceSpeed) := by
  refine ⟨⟨[Op.refDirect (-1)], rfl⟩, ?_⟩
  norm_num [referenceSpeedDirect, initialState]

/-- Claim C9 (amended): along any event sequence that never uses reference-speed
direct entry, both speeds stay non-negative (they are floored at 0, and 0
itself is reachable, so non-negativity — not positivity — is the
invariant; direct entry can moreover store any real into
referenceSpeed). -/
theorem C9_speeds_nonneg (ops : List Op)
    (h : ∀ o ∈ ops, o.isRefDirect = false) :
    0 ≤ (run ops initialState).referenceSpeed ∧ 0 ≤ (run ops initialState).speed := by
  have general : ∀ (l : List Op) (s : State), (∀ o ∈ l, o.isRefDirect = false) →
      0 ≤ s.referenceSpeed → 0 ≤ s.speed →
      0 ≤ (run l s).referenceSpeed ∧ 0 ≤ (run l s).speed := by
    intro l
    induction l with
    | nil => exact fun s _ hr hs => ⟨hr, hs⟩
    | cons o rest ih =>
      intro s hl hr hs
      have hrest : ∀ x ∈ rest, x.isRefDirect = false :=
        fun x hx => hl x (List.mem_cons_of_mem o hx)
      rw [run_cons]
      cases o with
      | start => exact ih (handleStart s) hrest hr hs
      | stop => exact ih (handleStop s) hrest hr hs
      | tick =>
        rw [show applyOp Op.tick s = if s.isRunning then tick s else s from rfl]
        by_cases hrun : s.isRunning
        · rw [if_pos hrun]
          exact ih (tick s) hrest hr hs
        · rw [if_neg hrun]
          exact ih s hrest hr hs
      | speedDelta d => exact ih _ hrest hr (le_max_left 0 _)
      | refDelta d => exact ih _ hrest (le_max_left 0 _) hs
      | targetMinus => exact ih _ hrest hr hs
      | targetPlus => exact ih _ hrest hr hs
      | targetDirect m => exact ih _ hrest hr hs
      | refDirect v =>
        have : Op.isRefDirect (Op.refDirect v) = false := hl _ (List.mem_cons_self _ _)
        exact absurd this (by simp [Op.isRefDirect])
  exact general ops initialState h (by norm_num [initialState]) (by norm_num [initialState])

/-- Witness for C9 (amended): driving the speed down by 10 mi/h from the
initial 5 mi/h (an event sequence with no direct entry) leaves both
speeds non-negative. -/
theorem C9_speeds_nonneg_witness :
    (∀ o ∈ [Op.speedDelta (-10)], o.isRefDirect = false) ∧
    (0 ≤ (run [Op.speedDelta (-10)] initialState).referenceSpeed ∧
      0 ≤ (run [Op.speedDelta (-10)] initialState).speed) := by
  have hyp : ∀ o ∈ [Op.speedDelta (-10)], o.isRefDirect = false := by
    intro o ho
    simp only [List.mem_singleton] at ho
    rw [ho]
    rfl
  exact ⟨hyp, C9_speeds_nonneg [Op.speedDelta (-10)] hyp⟩

/-! ## NaN handling (for C6) -/

theorem jgt_none_left (b : Option ℚ) : jgt none b = false := by cases b <;> rfl

theorem jgt_none_right (a : Option ℚ) : jgt a none = false := by cases a <;> rfl

theorem jmul_none_left (b : Option ℚ) : jmul none b = none := by cases b <;> rfl

theorem jdiv_none_left (b : Option ℚ) : jdiv none b = none := by cases b <;> rfl

theorem jsub_none_left (b : Option ℚ) : jsub none b = none := by cases b <;> rfl

theorem jgt_true {a b : Option ℚ} (h : jgt a b = true) :
    ∃ x y, a = some x ∧ b = some y ∧ y < x := by
  cases a with
  | none => rw [jgt_none_left] at h; exact absurd h (by simp)
  | some x =>
    cases b with
    | none => rw [jgt_none_right] at h; exact absurd h (by simp)
    | some y => exact ⟨x, y, rfl, rfl, by simpa [jgt] using h⟩

/-- The raw catch-up value before the positivity clamp. -/
def catchUpRawN (s : StateN) : Option ℚ :=
  jround (jmul (jdiv (jsub (lastSampleN s).reference (lastSampleN s).distance)
    (jsub s.speed s.referenceSpeed)) (some 3600))

theorem catchUpTimeN_eq (s : StateN) :
    catchUpTimeN s =
      if jgt s.speed s.referenceSpeed then
        some (if jgt (catchUpRawN s) (some 0) then catchUpRawN s else some 0)
      else none := rfl

/-- The remaining time read by the required-speed computation. -/
def remainingN (s : StateN) : Option ℚ :=
  jsub s.targetTime (some (s.time : ℚ))

/-- The raw required-speed value before the positivity check. -/
def requiredRawN (s : StateN) : Option ℚ :=
  jmul (jdiv (jsub (jdiv (jmul s.referenceSpeed s.targetTime) (some 3600)) s.distance)
    (remainingN s)) (some 3600)

theorem requiredSpeedN_eq (s : StateN) :
    requiredSpeedN s =
      if jgt (remainingN s) (some 0) then
        (if jgt (requiredRawN s) (some 0) then some (requiredRawN s) else none)
      else none := rfl

theorem clamp_ne_none (c : Option ℚ) : (if jgt c (some 0) then c else some 0) ≠ none := by
  cases hb : jgt c (some 0) with
  | false => simp [hb]
  | true =>
    obtain ⟨x, y, hx, hy, hxy⟩ := jgt_true hb
    simp [hb, hx]

/-- A state with `NaN` stored in `targetTime` by malformed direct entry
while both speeds and the history are ordinary finite values. -/
def exC6 : StateN :=
  { speed := some 5
    referenceSpeed := some 4
    time := 0
    distance := some 0
    chartData := [⟨0, some 0, some 0⟩]
    targetTime := none }

/-- Claim C6 counterexample: in a state whose `targetTime` is `NaN` but whose
speeds are finite with `speed > referenceSpeed`, the catch-up estimator —
which never reads `targetTime` — still reports the numeric value 0, not
"not applicable", so the claimed "both results are not applicable" fails. -/
theorem C6_counterexample :
    exC6.targetTime = none ∧ catchUpTimeN exC6 = some (some 0) ∧
      catchUpTimeN exC6 ≠ none := by
  have h : catchUpTimeN exC6 = some (some 0) := by
    simp [catchUpTimeN, exC6, lastSampleN, jgt, jsub, jdiv, jmul, jround]
    norm_num
  refine ⟨rfl, h, ?_⟩
  rw [h]
  simp

/-- Claim C6 (amended): a `NaN` referenceSpeed makes both estimators report
"not applicable", a `NaN` targetTime makes the required-speed estimator
report "not applicable" (the catch-up estimator does not read targetTime
and can still report a number), and no state whatsoever makes either
estimator output `NaN`: every numeric output is finite. -/
theorem C6_nan_handling (s : StateN) :
    (s.referenceSpeed = none → catchUpTimeN s = none ∧ requiredSpeedN s = none) ∧
    (s.targetTime = none → requiredSpeedN s = none) ∧
    (∀ v, catchUpTimeN s = some v → v ≠ none) ∧
    (∀ v, requiredSpeedN s = some v → v ≠ none) := by
  have hreqTT : s.targetTime = none → requiredSpeedN s = none := by
    intro h
    rw [requiredSpeedN_eq, remainingN, h, jsub_none_left, jgt_none_left]
    simp
  have hreqRef : s.referenceSpeed = none → requiredSpeedN s = none := by
    intro h
    cases ht : s.targetTime with
    | none => exact hreqTT ht
    | some t =>
      rw [requiredSpeedN_eq]
      cases hrem : jgt (remainingN s) (some 0) with
      | false => simp [hrem]
      | true =>
        have hraw : requiredRawN s = none := by
          rw [requiredRawN, h, jmul_none_left, jdiv_none_left, jsub_none_left,
            jdiv_none_left, jmul_none_left]
        rw [hraw, jgt_none_left]
        simp [hrem]
  have hcuRef : s.referenceSpeed = none → catchUpTimeN s = none := by
    intro h
    rw [catchUpTimeN_eq, h, jgt_none_right]
    simp
  refine ⟨fun h => ⟨hcuRef h, hreqRef h⟩, hreqTT, fun v hv => ?_, fun v hv => ?_⟩
  · rw [catchUpTimeN_eq] at hv
    cases hc : jgt s.speed s.referenceSpeed with
    | false => rw [hc] at hv; simp at hv
    | true =>
      rw [hc] at hv
      simp only [if_true] at hv
      have := clamp_ne_none (catchUpRawN s)
      intro hvnone
      rw [hvnone] at hv
      simp at hv
      exact this hv
  · rw [requiredSpeedN_eq] at hv
    cases h1 : jgt (remainingN s) (some 0) with
    | false => rw [h1] at hv; simp at hv
    | true =>
      rw [h1] at hv
      simp only [if_true] at hv
      cases h2 : jgt (requiredRawN s) (some 0) with
      | false => rw [h2] at hv; simp at hv
      | true =>
        rw [h2] at hv
        simp only [if_true, Option.some.injEq] at hv
        obtain ⟨x, y, hx, hy, hxy⟩ := jgt_true h2
        rw [← hv, hx]
        simp

/-- The state of the C6 witness: `NaN` referenceSpeed by malformed direct
entry. -/
def exC6w : StateN := { exC6 with referenceSpeed := none }

/-- Witness for C6 (amended): with `NaN` referenceSpeed both estimators
report "not applicable". -/
theorem C6_nan_handling_witness :
    exC6w.referenceSpeed = none ∧ catchUpTimeN exC6w = none ∧
      requiredSpeedN exC6w = none :=
  ⟨rfl, ((C6_nan_handling exC6w).1 rfl).1, ((C6_nan_handling exC6w).1 rfl).2⟩

end Threadmill
